import Mathlib

/-!
Shallow embedding of the docker-mcp repository (Go): the MCP tool handlers
of `src/main.go`, the handlers variant of `pkg/handlers`, and the response
envelope of `pkg/models`.  External container-engine calls are modelled by
explicit oracle arguments; every handler additionally records the trace of
delegated engine-client calls it performs.
-/

namespace DockerMCP

/-- A JSON number `num / den` with `0 < den` (Go decodes JSON numbers as
float64, whose values are exact fractions; the handlers only compare
them with 0 and truncate them to `int`). -/
structure JNumber where
  num : Int
  den : Nat
deriving DecidableEq, Repr

/-- The rational value of a JSON number. -/
def JNumber.toRat (q : JNumber) : ℚ :=
  (q.num : ℚ) / (q.den : ℚ)

/-- Go `v < 0` on a JSON number: for `0 < den` this is exactly
negativity of the value (see `JNumber.isNeg_iff`). -/
def JNumber.isNeg (q : JNumber) : Bool :=
  q.num < 0

/-- Go `int(v)`: conversion of a float64 to `int` truncates toward
zero, which on the fraction is `num.tdiv den`. -/
def JNumber.toGoInt (q : JNumber) : Int :=
  q.num.tdiv q.den

/-- JSON values, the dynamic `interface{}` data of decoded MCP arguments
and of serialized responses. -/
inductive JValue where
  | null : JValue
  | bool (b : Bool) : JValue
  | num (q : JNumber) : JValue
  | str (s : String) : JValue
  | arr (xs : List JValue) : JValue
  | obj (fields : List (String × JValue)) : JValue

/-- Embedding of an integer as a JSON number. -/
def jint (i : Int) : JValue :=
  JValue.num ⟨i, 1⟩

/-- Embedding of a natural number as a JSON number. -/
def jnat (n : Nat) : JValue :=
  JValue.num ⟨(n : Int), 1⟩

/-- The decoded `map[string]interface{}` of tool-call arguments. -/
abbrev Params := List (String × JValue)

/-- Go map lookup `params[k]`: the value for the first matching key. -/
def lookupParam (p : Params) (k : String) : Option JValue :=
  (p.find? (fun kv => kv.1 = k)).map (·.2)

/-- Go `params[k].(string)` type assertion: `some s` iff present and a string. -/
def asString (p : Params) (k : String) : Option String :=
  match lookupParam p k with
  | some (JValue.str s) => some s
  | _ => none

/-- Go `params[k].(bool)` type assertion. -/
def asBool (p : Params) (k : String) : Option Bool :=
  match lookupParam p k with
  | some (JValue.bool b) => some b
  | _ => none

/-- Go `params[k].(float64)` type assertion. -/
def asNum (p : Params) (k : String) : Option JNumber :=
  match lookupParam p k with
  | some (JValue.num q) => some q
  | _ => none

/-- Go `params[k].([]interface{})` type assertion. -/
def asArr (p : Params) (k : String) : Option (List JValue) :=
  match lookupParam p k with
  | some (JValue.arr xs) => some xs
  | _ => none

/-- Go `params[k].(map[string]interface{})` type assertion. -/
def asObj (p : Params) (k : String) : Option (List (String × JValue)) :=
  match lookupParam p k with
  | some (JValue.obj fs) => some fs
  | _ => none

/-- The validated required-string extraction pattern
`v, ok := params[k].(string); if !ok || v == "" { error }`:
`some v` exactly when the argument is present, a string and non-empty. -/
def requiredStr (p : Params) (k : String) : Option String :=
  match asString p k with
  | some s => if s = "" then none else some s
  | none => none


/-! ## Response payload structures (`pkg/models/models.go`, `main.go`) -/

/-- `Port`: a container port mapping (uint16 ports modelled as Nat). -/
structure PortInfo where
  ip : String
  privatePort : Nat
  publicPort : Nat
  type : String
deriving DecidableEq, Repr

/-- `ContainerInfo`: structured container information. -/
structure ContainerInfo where
  id : String
  names : List String
  image : String
  status : String
  state : String
  created : Int
  ports : List PortInfo
deriving DecidableEq, Repr

/-- `ImageInfo`: structured image information. -/
structure ImageInfo where
  id : String
  tags : List String
  size : Int
  created : Int
  containers : Int
deriving DecidableEq, Repr

/-- `SearchResult`: a Docker Hub search result. -/
structure SearchResult where
  name : String
  description : String
  official : Bool
  automated : Bool
  stars : Int
deriving DecidableEq, Repr

/-- `CommandResponse`: exec-command result. -/
structure CommandResponse where
  containerId : String
  command : String
  output : String
deriving DecidableEq, Repr

/-- `ContainerCreatedResponse`. -/
structure ContainerCreatedResponse where
  id : String
  name : String
deriving DecidableEq, Repr

/-- `ContainerActionResponse`: start/stop/restart/remove result. -/
structure ContainerActionResponse where
  id : String
  action : String
  status : String
deriving DecidableEq, Repr

/-- `ImageRemovedResponse`. -/
structure ImageRemovedResponse where
  removed : Bool
  imageId : String
  untaggedIds : List String
deriving DecidableEq, Repr

/-- `LogsResponse`. -/
structure LogsResponse where
  containerId : String
  logs : String
deriving DecidableEq, Repr

/-- `BuildImageResponse`. -/
structure BuildImageResponse where
  success : Bool
  imageId : String
  tags : List String
  error : String
deriving DecidableEq, Repr

/-- `InspectResponse`. -/
structure InspectResponse where
  id : String
  type : String
  details : JValue

/-- `PullProgressResponse`. -/
structure PullProgressResponse where
  imageName : String
  status : String
  complete : Bool
deriving DecidableEq, Repr

/-- `ProgressEvent`: one decoded pull-progress event. -/
structure ProgressEvent where
  status : String
  current : Int
  total : Int
  id : String
deriving DecidableEq, Repr

/-! ## JSON marshalling of the payload structures (Go `encoding/json` with
the struct tags of `pkg/models/models.go` / `main.go`; `omitempty` fields
are omitted at their zero value, and a nil slice marshals to `null`). -/

/-- Marshal of `Port` (`ip,omitempty`, `public_port,omitempty`). -/
def PortInfo.toJson (p : PortInfo) : JValue :=
  JValue.obj
    ((if p.ip ≠ "" then [("ip", JValue.str p.ip)] else [])
      ++ [("private_port", jnat p.privatePort)]
      ++ (if p.publicPort ≠ 0 then [("public_port", jnat p.publicPort)] else [])
      ++ [("type", JValue.str p.type)])

/-- Marshal of `ContainerInfo`. -/
def ContainerInfo.toJson (c : ContainerInfo) : JValue :=
  JValue.obj
    [("id", JValue.str c.id),
     ("names", JValue.arr (c.names.map JValue.str)),
     ("image", JValue.str c.image),
     ("status", JValue.str c.status),
     ("state", JValue.str c.state),
     ("created", jint c.created),
     ("ports", JValue.arr (c.ports.map PortInfo.toJson))]

/-- Marshal of `ImageInfo`. -/
def ImageInfo.toJson (i : ImageInfo) : JValue :=
  JValue.obj
    [("id", JValue.str i.id),
     ("tags", JValue.arr (i.tags.map JValue.str)),
     ("size", jint i.size),
     ("created", jint i.created),
     ("containers", jint i.containers)]

/-- Marshal of `SearchResult`. -/
def SearchResult.toJson (r : SearchResult) : JValue :=
  JValue.obj
    [("name", JValue.str r.name),
     ("description", JValue.str r.description),
     ("official", JValue.bool r.official),
     ("automated", JValue.bool r.automated),
     ("stars", jint r.stars)]

/-- Marshal of `CommandResponse`. -/
def CommandResponse.toJson (c : CommandResponse) : JValue :=
  JValue.obj
    [("container_id", JValue.str c.containerId),
     ("command", JValue.str c.command),
     ("output", JValue.str c.output)]

/-- Marshal of `ContainerCreatedResponse`. -/
def ContainerCreatedResponse.toJson (c : ContainerCreatedResponse) : JValue :=
  JValue.obj [("id", JValue.str c.id), ("name", JValue.str c.name)]

/-- Marshal of `ContainerActionResponse`. -/
def ContainerActionResponse.toJson (a : ContainerActionResponse) : JValue :=
  JValue.obj
    [("id", JValue.str a.id),
     ("action", JValue.str a.action),
     ("status", JValue.str a.status)]

/-- Marshal of `ImageRemovedResponse` (`untagged_ids,omitempty`). -/
def ImageRemovedResponse.toJson (r : ImageRemovedResponse) : JValue :=
  JValue.obj
    ([("removed", JValue.bool r.removed),
      ("image_id", JValue.str r.imageId)]
      ++ (if r.untaggedIds ≠ [] then
            [("untagged_ids", JValue.arr (r.untaggedIds.map JValue.str))]
          else []))

/-- Marshal of `LogsResponse`. -/
def LogsResponse.toJson (l : LogsResponse) : JValue :=
  JValue.obj
    [("container_id", JValue.str l.containerId),
     ("logs", JValue.str l.logs)]

/-- Marshal of `BuildImageResponse` (`image_id`, `tags`, `error` omitempty). -/
def BuildImageResponse.toJson (b : BuildImageResponse) : JValue :=
  JValue.obj
    ([("success", JValue.bool b.success)]
      ++ (if b.imageId ≠ "" then [("image_id", JValue.str b.imageId)] else [])
      ++ (if b.tags ≠ [] then [("tags", JValue.arr (b.tags.map JValue.str))] else [])
      ++ (if b.error ≠ "" then [("error", JValue.str b.error)] else []))

/-- Marshal of `InspectResponse` (`details` is already-marshalled raw JSON). -/
def InspectResponse.toJson (i : InspectResponse) : JValue :=
  JValue.obj
    [("id", JValue.str i.id),
     ("type", JValue.str i.type),
     ("details", i.details)]

/-- Marshal of `PullProgressResponse`. -/
def PullProgressResponse.toJson (p : PullProgressResponse) : JValue :=
  JValue.obj
    [("image_name", JValue.str p.imageName),
     ("status", JValue.str p.status),
     ("complete", JValue.bool p.complete)]

/-! ## The response envelope (`APIResponse`, `formatResponse`,
`formatErrorResponse`). -/

/-- The data value passed to `formatResponse`; the constructors are the Go
types that reach its `switch v := data.(type)` statement.  The three slice
payloads are built with `var result []T` + `append`, so a zero-length
result is a nil slice (marshals to `null`). -/
inductive HandlerData where
  | containers (xs : List ContainerInfo)
  | images (xs : List ImageInfo)
  | searches (xs : List SearchResult)
  | command (c : CommandResponse)
  | created (c : ContainerCreatedResponse)
  | action (a : ContainerActionResponse)
  | imageRemoved (r : ImageRemovedResponse)
  | logs (l : LogsResponse)
  | build (b : BuildImageResponse)
  | inspect (i : InspectResponse)
  | pullProgress (p : PullProgressResponse)

/-- `json.Marshal(data)` for the payloads that reach `formatResponse`. -/
def marshalData : HandlerData → JValue
  | HandlerData.containers xs =>
      if xs = [] then JValue.null else JValue.arr (xs.map ContainerInfo.toJson)
  | HandlerData.images xs =>
      if xs = [] then JValue.null else JValue.arr (xs.map ImageInfo.toJson)
  | HandlerData.searches xs =>
      if xs = [] then JValue.null else JValue.arr (xs.map SearchResult.toJson)
  | HandlerData.command c => c.toJson
  | HandlerData.created c => c.toJson
  | HandlerData.action a => a.toJson
  | HandlerData.imageRemoved r => r.toJson
  | HandlerData.logs l => l.toJson
  | HandlerData.build b => b.toJson
  | HandlerData.inspect i => i.toJson
  | HandlerData.pullProgress p => p.toJson

/-- The `switch v := data.(type)` of `formatResponse`: `Count` is set to
the length for the slice payloads and stays 0 otherwise. -/
def dataCount : HandlerData → Nat
  | HandlerData.containers xs => xs.length
  | HandlerData.images xs => xs.length
  | HandlerData.searches xs => xs.length
  | _ => 0

/-- `APIResponse`: the uniform envelope (struct fields, before JSON
serialization).  `data = none` models the nil `json.RawMessage` of an
error response; `timestamp` abstracts `time.Now()`. -/
structure APIResponse where
  success : Bool
  data : Option JValue
  error : String
  count : Nat
  timestamp : Nat

/-- `formatResponse`: the success envelope around a marshalled payload. -/
def formatResponse (now : Nat) (d : HandlerData) : APIResponse :=
  { success := true
    data := some (marshalData d)
    error := ""
    count := dataCount d
    timestamp := now }

/-- `formatErrorResponse`: the failure envelope around an error message. -/
def formatErrorResponse (now : Nat) (msg : String) : APIResponse :=
  { success := false
    data := none
    error := msg
    count := 0
    timestamp := now }

/-- `json.MarshalIndent(response, ...)` on `APIResponse`, as the ordered
field list of the serialized object.  Tags: `success`, `data`,
`error,omitempty`, `count,omitempty`, `timestamp`; a nil `RawMessage`
marshals to `null`. -/
def serializeEnvelope (r : APIResponse) : List (String × JValue) :=
  [("success", JValue.bool r.success),
   ("data", r.data.getD JValue.null)]
  ++ (if r.error ≠ "" then [("error", JValue.str r.error)] else [])
  ++ (if r.count ≠ 0 then [("count", jnat r.count)] else [])
  ++ [("timestamp", jnat r.timestamp)]

/-- The key set of the serialized envelope. -/
def envelopeKeys (r : APIResponse) : List String :=
  (serializeEnvelope r).map (·.1)

/-! ## Delegated engine-client calls (the docker SDK methods invoked by
the handlers), recorded as a trace. -/

/-- Options forwarded to `ContainerLogs` (`container.LogsOptions`). -/
structure LogsCallOptions where
  showStdout : Bool
  showStderr : Bool
  follow : Bool
  timestamps : Bool
  tail : String
deriving DecidableEq, Repr

/-- A `nat.PortBinding`. -/
structure PortBinding where
  hostIp : String
  hostPort : String
deriving DecidableEq, Repr

/-- The parts of `container.Config` the handler fills in. -/
structure CreateConfig where
  image : String
  cmd : List String
  env : List String
  workingDir : String
  exposedPorts : List String
deriving DecidableEq, Repr

/-- The parts of `container.HostConfig` the handler fills in. -/
structure HostConfigE where
  portBindings : List (String × List PortBinding)
  binds : List String
  networkMode : String
  restartPolicyName : String
  restartPolicyMax : Int
  autoRemove : Bool
deriving DecidableEq, Repr

/-- One delegated call into the container-engine client library
(`github.com/docker/docker/client`), with the arguments forwarded. -/
inductive ClientCall where
  | containerList (all : Bool)
  | containerExecCreate (containerId : String) (cmd : List String)
      (attachStdout attachStderr : Bool)
  | containerExecAttach (execId : String)
  | imagePull (imageName : String)
  | imageList (all : Bool)
  | imageSearch (term : String) (limit : Int)
  | containerCreate (cfg : CreateConfig) (host : HostConfigE) (name : String)
  | containerStart (id : String)
  | containerStop (id : String) (timeout : Int)
  | containerRestart (id : String) (timeout : Int)
  | containerRemove (id : String) (force removeVolumes : Bool)
  | imageRemove (id : String) (force : Bool)
  | containerLogs (id : String) (opts : LogsCallOptions)
  | containerInspect (id : String)
  | imageInspectRaw (id : String)
  | imageBuild (dockerfile : String) (tags : List String)
      (noCache pullParent remove : Bool)
deriving DecidableEq, Repr

/-! ## Go string helpers (`strings.Index`, `strings.Contains`,
`strings.TrimSpace`; `strings.Split` is `String.splitOn`, which agrees
with Go for non-empty separators). -/

/-- First index at which `sub` occurs in the character list, scanning left
to right (`strings.Index`, with `none` for Go's `-1`). -/
def strIndexAux : List Char → List Char → Nat → Option Nat
  | [], sub, i => if sub.isEmpty then some i else none
  | c :: cs, sub, i =>
      if List.isPrefixOf sub (c :: cs) then some i else strIndexAux cs sub (i + 1)

/-- `strings.Index s sub` (character positions; the repo only searches
ASCII literals, where byte and character indices agree). -/
def strIndex (s sub : String) : Option Nat :=
  strIndexAux s.toList sub.toList 0

/-- `strings.Contains s sub`. -/
def strContains (s sub : String) : Bool :=
  (strIndex s sub).isSome

/-- `strings.HasSuffix s suffix`. -/
def strHasSuffix (s sfx : String) : Bool :=
  List.isSuffixOf sfx.toList s.toList

/-- Splitting on a single-character separator, accumulating the current
field in reverse (`strings.Split` with a one-character separator:
`"" ↦ [""]`, `"a:b" ↦ ["a","b"]`, `":" ↦ ["",""]`). -/
def splitCharAux (sep : Char) : List Char → List Char → List String
  | [], cur => [String.mk cur.reverse]
  | c :: cs, cur =>
      if c = sep then String.mk cur.reverse :: splitCharAux sep cs []
      else splitCharAux sep cs (c :: cur)

/-- `strings.Split s sep` for a one-character separator. -/
def splitChar (s : String) (sep : Char) : List String :=
  splitCharAux sep s.toList []

/-- Go `unicode.IsSpace` on the ASCII whitespace the repo can meet. -/
def isSpaceGo (c : Char) : Bool :=
  c = ' ' ∨ c = '\t' ∨ c = '\n' ∨ c = '\r' ∨ c = '\x0b' ∨ c = '\x0c'

/-- `strings.TrimSpace`. -/
def trimSpace (s : String) : String :=
  String.mk (((s.toList.dropWhile isSpaceGo).reverse.dropWhile isSpaceGo).reverse)

/-- Decimal parse of a non-empty all-digit string
(`strconv.ParseUint(s, 10, _)` before the bit-width check). -/
def digitsToNat (s : String) : Option Nat :=
  let cs := s.toList
  if cs ≠ [] ∧ cs.all Char.isDigit then
    some (cs.foldl (fun a c => a * 10 + (c.toNat - 48)) 0)
  else none

/-! ## `nat.NewPort` (github.com/docker/go-connections/nat), as called by
the port-mapping parsers of `createContainerHandler` /
`HandleCreateContainer`. -/

/-- `strconv.ParseUint(s, 10, 16)`: non-empty decimal digits, value below
2^16. -/
def parseUint16 (s : String) : Option Nat :=
  match digitsToNat s with
  | some n => if n < 65536 then some n else none
  | none => none

/-- `nat.ParsePortRange`: a single port, or `start-end` with
`start ≤ end`; errors are `none`. -/
def parsePortRange (ports : String) : Option (Nat × Nat) :=
  if ports = "" then none
  else if ¬ strContains ports "-" then
    (parseUint16 ports).map (fun p => (p, p))
  else
    let parts := splitChar ports '-'
    match parseUint16 (parts.headD ""), parseUint16 (parts.getD 1 "") with
    | some s, some e => if e < s then none else some (s, e)
    | _, _ => none

/-- `nat.NewPort proto port`: validates `port` and renders
`"start/proto"` or `"start-end/proto"`. -/
def natNewPort (proto port : String) : Option String :=
  match parsePortRange port with
  | none => none
  | some (s, e) =>
      if s = e then some (toString s ++ "/" ++ proto)
      else some (toString s ++ "-" ++ toString e ++ "/" ++ proto)

/-! ## Port-mapping parsing: the `for portMapping := range portMapObj`
loops of the two `create_container` variants. -/

/-- `portBindings[containerPort] = ...`: Go map assignment on the
association-list model. -/
def insertBinding (m : List (String × List PortBinding)) (k : String)
    (v : List PortBinding) : List (String × List PortBinding) :=
  if m.any (fun e => e.1 = k) then
    m.map (fun e => if e.1 = k then (k, v) else e)
  else m ++ [(k, v)]

/-- `exposedPorts[containerPort] = struct{}{}`: set insertion. -/
def insertExposed (s : List String) (k : String) : List String :=
  if s.contains k then s else s ++ [k]

/-- One iteration of the `main.go` port loop.  The indexing
`strings.Split(containerPortProto, "/")[1]` is unguarded: a
container-port part without `'/'` makes it out of bounds (`none` models
the runtime panic). -/
def portStepMain (acc : List (String × List PortBinding) × List String)
    (key : String) : Option (List (String × List PortBinding) × List String) :=
  let parts := splitChar key ':'
  if parts.length ≠ 2 then some acc
  else
    let hostPort := parts.headD ""
    let containerPortProto := parts.getD 1 ""
    let protoParts := splitChar containerPortProto '/'
    match protoParts.get? 1 with
    | none => none
    | some proto =>
        match natNewPort proto (protoParts.headD "") with
        | none => some acc
        | some containerPort =>
            some (insertBinding acc.1 containerPort [⟨"0.0.0.0", hostPort⟩],
                  insertExposed acc.2 containerPort)

/-- The `main.go` port loop from a given accumulator; a panicking
iteration (`none`) aborts the whole loop. -/
def parsePortsMainAux (acc : List (String × List PortBinding) × List String) :
    List String → Option (List (String × List PortBinding) × List String)
  | [] => some acc
  | k :: ks =>
      match portStepMain acc k with
      | none => none
      | some acc2 => parsePortsMainAux acc2 ks

/-- The full `main.go` port loop over the map keys (`none`: the loop
panicked on some key). -/
def parsePortsMain (keys : List String) :
    Option (List (String × List PortBinding) × List String) :=
  parsePortsMainAux ([], []) keys

/-- One iteration of the `pkg/handlers` port loop: when the
container-port part does not split into exactly two on `'/'`, the code
sets `portParts = []string{containerPortProto + "/tcp", "tcp"}` and
proceeds, so `nat.NewPort` receives the whole suffixed string as the
port. -/
def portStepHandlers (acc : List (String × List PortBinding) × List String)
    (key : String) : List (String × List PortBinding) × List String :=
  let parts := splitChar key ':'
  if parts.length ≠ 2 then acc
  else
    let hostPort := parts.headD ""
    let containerPortProto := parts.getD 1 ""
    let portParts := splitChar containerPortProto '/'
    let portParts :=
      if portParts.length ≠ 2 then [containerPortProto ++ "/tcp", "tcp"]
      else portParts
    match natNewPort (portParts.getD 1 "") (portParts.headD "") with
    | none => acc
    | some containerPort =>
        (insertBinding acc.1 containerPort [⟨"0.0.0.0", hostPort⟩],
         insertExposed acc.2 containerPort)

/-- The full `pkg/handlers` port loop; total by construction. -/
def parsePortsHandlers (keys : List String) :
    List (String × List PortBinding) × List String :=
  keys.foldl portStepHandlers ([], [])

/-! ## Engine-side data returned by delegated calls (docker SDK types,
restricted to the fields the handlers read). -/

/-- `types.Container` (fields used by `listContainersHandler`). -/
structure EngineContainer where
  id : String
  names : List String
  image : String
  status : String
  state : String
  created : Int
  ports : List PortInfo
deriving DecidableEq, Repr

/-- `image.Summary` (fields used by `listImagesHandler`). -/
structure EngineImage where
  id : String
  repoTags : List String
  size : Int
  created : Int
  containers : Int
deriving DecidableEq, Repr

/-- `registry.SearchResult` (fields used by `searchImageHandler`). -/
structure EngineSearchItem where
  name : String
  description : String
  isOfficial : Bool
  isAutomated : Bool
  starCount : Int
deriving DecidableEq, Repr

/-- `image.DeleteResponse`. -/
structure DeleteResponseItem where
  untagged : String
  deleted : String
deriving DecidableEq, Repr

/-- The decoded pull stream: the progress events successfully decoded, and
how decoding ended (`none` = `io.EOF`, `some msg` = a decode error). -/
structure PullStream where
  events : List ProgressEvent
  decodeError : Option String
deriving DecidableEq, Repr

/-- What a tool invocation produced: the response envelope (`none` when no
response is ever produced — a blocked channel send or a runtime panic)
and the trace of delegated engine-client calls. -/
structure HandlerOut where
  response : Option APIResponse
  calls : List ClientCall

/-! ## The tool handlers of `src/main.go`.  Each takes the decoded
arguments, an oracle for the results of its delegated calls, and the
`time.Now()` abstraction, and yields a `HandlerOut`. -/

/-- Field-by-field copy `types.Container → ContainerInfo` done by
`listContainersHandler` (the ports slice is initialised to `[]Port{}`,
so it is never nil). -/
def containerInfoOfEngine (c : EngineContainer) : ContainerInfo :=
  ⟨c.id, c.names, c.image, c.status, c.state, c.created, c.ports⟩

/-- `listContainersHandler` composed with its `setupServer` wrapper
(`formatErrorResponse` on error, `formatResponse` on success). -/
def listContainersTool (now : Nat) (p : Params)
    (o : Except String (List EngineContainer)) : HandlerOut :=
  let all := (asBool p "all").getD false
  match o with
  | Except.error e =>
      ⟨some (formatErrorResponse now ("failed to list containers: " ++ e)),
       [ClientCall.containerList all]⟩
  | Except.ok cs =>
      ⟨some (formatResponse now
         (HandlerData.containers (cs.map containerInfoOfEngine))),
       [ClientCall.containerList all]⟩

/-- Oracle for `execCommandHandler`: what `ContainerExecCreate` returns,
and — if attachment happens — what `ContainerExecAttach` and the
`io.ReadAll` of its reader return. -/
structure ExecOracle where
  createResult : Except String String
  attachResult : Except String (Except String String)

/-- `execCommandHandler` composed with its `setupServer` wrapper.  It
delegates twice to the engine client: `ContainerExecCreate` then
`ContainerExecAttach`. -/
def execCommandTool (now : Nat) (p : Params) (o : ExecOracle) : HandlerOut :=
  match requiredStr p "container_id" with
  | none => ⟨some (formatErrorResponse now "container_id is required"), []⟩
  | some cid =>
    match requiredStr p "command" with
    | none => ⟨some (formatErrorResponse now "command is required"), []⟩
    | some cmd =>
      let callCreate := ClientCall.containerExecCreate cid ["sh", "-c", cmd] true true
      match o.createResult with
      | Except.error e =>
          ⟨some (formatErrorResponse now ("failed to create exec: " ++ e)), [callCreate]⟩
      | Except.ok execId =>
          match o.attachResult with
          | Except.error e =>
              ⟨some (formatErrorResponse now ("failed to attach exec: " ++ e)),
               [callCreate, ClientCall.containerExecAttach execId]⟩
          | Except.ok (Except.error e) =>
              ⟨some (formatErrorResponse now ("failed to read output: " ++ e)),
               [callCreate, ClientCall.containerExecAttach execId]⟩
          | Except.ok (Except.ok output) =>
              ⟨some (formatResponse now (HandlerData.command ⟨cid, cmd, output⟩)),
               [callCreate, ClientCall.containerExecAttach execId]⟩

/-- The progress channel capacity: `make(chan ProgressEvent, 100)`. -/
def chanCapacity : Nat := 100

/-- The sends `s.progressCh <- event` of the decode loop, starting from
buffer occupancy `n`.  No goroutine ever receives from `progressCh`, so a
send on a full buffer blocks forever (`none`). -/
def sendAll : List ProgressEvent → Nat → Option Nat
  | [], n => some n
  | _ :: es, n => if n < chanCapacity then sendAll es (n + 1) else none

/-- `pullImageHandler`: required `image_name`, one `ImagePull` call, then
the decode loop sending each event into the progress channel. -/
def pullImageTool (now : Nat) (p : Params)
    (o : Except String PullStream) : HandlerOut :=
  match requiredStr p "image_name" with
  | none => ⟨some (formatErrorResponse now "image_name is required"), []⟩
  | some imageName =>
    match o with
    | Except.error e =>
        ⟨some (formatErrorResponse now ("failed to pull image: " ++ e)),
         [ClientCall.imagePull imageName]⟩
    | Except.ok st =>
        match sendAll st.events 0 with
        | none => ⟨none, [ClientCall.imagePull imageName]⟩
        | some _ =>
            match st.decodeError with
            | some m =>
                ⟨some (formatErrorResponse now
                   ("failed to decode progress event: " ++ m)),
                 [ClientCall.imagePull imageName]⟩
            | none =>
                ⟨some (formatResponse now
                   (HandlerData.pullProgress ⟨imageName, "success", true⟩)),
                 [ClientCall.imagePull imageName]⟩

/-- `listImagesHandler`. -/
def listImagesTool (now : Nat) (p : Params)
    (o : Except String (List EngineImage)) : HandlerOut :=
  let all := (asBool p "all").getD false
  match o with
  | Except.error e =>
      ⟨some (formatErrorResponse now ("failed to list images: " ++ e)),
       [ClientCall.imageList all]⟩
  | Except.ok imgs =>
      ⟨some (formatResponse now (HandlerData.images
         (imgs.map (fun i => ⟨i.id, i.repoTags, i.size, i.created, i.containers⟩)))),
       [ClientCall.imageList all]⟩

/-- `searchImageHandler`: required `term`, optional numeric `limit`
(default 25, Go `int` truncation). -/
def searchImageTool (now : Nat) (p : Params)
    (o : Except String (List EngineSearchItem)) : HandlerOut :=
  match requiredStr p "term" with
  | none => ⟨some (formatErrorResponse now "search term is required"), []⟩
  | some term =>
    let limit : Int := match asNum p "limit" with
      | some q => q.toGoInt
      | none => 25
    match o with
    | Except.error e =>
        ⟨some (formatErrorResponse now ("failed to search images: " ++ e)),
         [ClientCall.imageSearch term limit]⟩
    | Except.ok items =>
        ⟨some (formatResponse now (HandlerData.searches
           (items.map (fun i =>
              ⟨i.name, i.description, i.isOfficial, i.isAutomated, i.starCount⟩)))),
         [ClientCall.imageSearch term limit]⟩

/-- Go `make([]string, len)` + elementwise string assertion: non-string
entries keep the zero value `""`. -/
def stringsOfArr (xs : List JValue) : List String :=
  xs.map (fun j => match j with | JValue.str s => s | _ => "")

/-- The optional string-array arguments (`command`, `env`, `volumes`):
set only when present with positive length. -/
def optStrArr (p : Params) (k : String) : List String :=
  match asArr p k with
  | some xs => if xs.length > 0 then stringsOfArr xs else []
  | none => []

/-- The `restart_policy` switch of `createContainerHandler`: name and
`MaximumRetryCount` (3 only for `on-failure`; unrecognized values leave
the zero policy). -/
def restartPolicyOf (p : Params) : String × Int :=
  match asString p "restart_policy" with
  | some rp =>
      if rp = "" then ("", 0)
      else if rp = "no" then ("no", 0)
      else if rp = "always" then ("always", 0)
      else if rp = "unless-stopped" then ("unless-stopped", 0)
      else if rp = "on-failure" then ("on-failure", 3)
      else ("", 0)
  | none => ("", 0)

/-- `createContainerHandler`: required `image` and `name`, optional
configuration, the `main.go` port loop (which can panic), then one
`ContainerCreate` call. -/
def createContainerTool (now : Nat) (p : Params)
    (o : Except String String) : HandlerOut :=
  match requiredStr p "image" with
  | none => ⟨some (formatErrorResponse now "image is required"), []⟩
  | some imageName =>
    match requiredStr p "name" with
    | none => ⟨some (formatErrorResponse now "name is required"), []⟩
    | some containerName =>
      let cmd := optStrArr p "command"
      let env := optStrArr p "env"
      let workingDir := (asString p "working_dir").getD ""
      let portsRes := match asObj p "ports" with
        | some fs => if fs.length > 0 then parsePortsMain (fs.map Prod.fst)
                     else some ([], [])
        | none => some ([], [])
      match portsRes with
      | none => ⟨none, []⟩
      | some pr =>
        let volumes := optStrArr p "volumes"
        let networkMode := (asString p "network_mode").getD ""
        let rp := restartPolicyOf p
        let autoRemove := (asBool p "auto_remove").getD false
        let cfg : CreateConfig := ⟨imageName, cmd, env, workingDir, pr.2⟩
        let host : HostConfigE :=
          ⟨pr.1, volumes, networkMode, rp.1, rp.2, autoRemove⟩
        let call := ClientCall.containerCreate cfg host containerName
        match o with
        | Except.error e =>
            ⟨some (formatErrorResponse now ("failed to create container: " ++ e)), [call]⟩
        | Except.ok respId =>
            ⟨some (formatResponse now
               (HandlerData.created ⟨respId, containerName⟩)), [call]⟩

/-- `startContainerHandler`. -/
def startContainerTool (now : Nat) (p : Params)
    (o : Except String Unit) : HandlerOut :=
  match requiredStr p "container_id" with
  | none => ⟨some (formatErrorResponse now "container_id is required"), []⟩
  | some cid =>
    match o with
    | Except.error e =>
        ⟨some (formatErrorResponse now ("failed to start container: " ++ e)),
         [ClientCall.containerStart cid]⟩
    | Except.ok _ =>
        ⟨some (formatResponse now
           (HandlerData.action ⟨cid, "start", "success"⟩)),
         [ClientCall.containerStart cid]⟩

/-- The `timeout` extraction of the stop/restart handlers: default 10,
Go `int` truncation of the float argument. -/
def timeoutParam (p : Params) : Int :=
  match asNum p "timeout" with
  | some q => q.toGoInt
  | none => 10

/-- `stopContainerHandler`. -/
def stopContainerTool (now : Nat) (p : Params)
    (o : Except String Unit) : HandlerOut :=
  match requiredStr p "container_id" with
  | none => ⟨some (formatErrorResponse now "container_id is required"), []⟩
  | some cid =>
    let t := timeoutParam p
    match o with
    | Except.error e =>
        ⟨some (formatErrorResponse now ("failed to stop container: " ++ e)),
         [ClientCall.containerStop cid t]⟩
    | Except.ok _ =>
        ⟨some (formatResponse now
           (HandlerData.action ⟨cid, "stop", "success"⟩)),
         [ClientCall.containerStop cid t]⟩

/-- `restartContainerHandler`. -/
def restartContainerTool (now : Nat) (p : Params)
    (o : Except String Unit) : HandlerOut :=
  match requiredStr p "container_id" with
  | none => ⟨some (formatErrorResponse now "container_id is required"), []⟩
  | some cid =>
    let t := timeoutParam p
    match o with
    | Except.error e =>
        ⟨some (formatErrorResponse now ("failed to restart container: " ++ e)),
         [ClientCall.containerRestart cid t]⟩
    | Except.ok _ =>
        ⟨some (formatResponse now
           (HandlerData.action ⟨cid, "restart", "success"⟩)),
         [ClientCall.containerRestart cid t]⟩

/-- `removeContainerHandler`. -/
def removeContainerTool (now : Nat) (p : Params)
    (o : Except String Unit) : HandlerOut :=
  match requiredStr p "container_id" with
  | none => ⟨some (formatErrorResponse now "container_id is required"), []⟩
  | some cid =>
    let force := (asBool p "force").getD false
    let removeVolumes := (asBool p "volumes").getD false
    match o with
    | Except.error e =>
        ⟨some (formatErrorResponse now ("failed to remove container: " ++ e)),
         [ClientCall.containerRemove cid force removeVolumes]⟩
    | Except.ok _ =>
        ⟨some (formatResponse now
           (HandlerData.action ⟨cid, "remove", "success"⟩)),
         [ClientCall.containerRemove cid force removeVolumes]⟩

/-- `removeImageHandler`: one `ImageRemove` call; the delete-response
list is folded into an `ImageRemovedResponse` (zero value when the list
is empty). -/
def removeImageTool (now : Nat) (p : Params)
    (o : Except String (List DeleteResponseItem)) : HandlerOut :=
  match requiredStr p "image" with
  | none => ⟨some (formatErrorResponse now "image is required"), []⟩
  | some imageId =>
    let force := (asBool p "force").getD false
    match o with
    | Except.error e =>
        ⟨some (formatErrorResponse now ("failed to remove image: " ++ e)),
         [ClientCall.imageRemove imageId force]⟩
    | Except.ok resp =>
        let result : ImageRemovedResponse :=
          if resp.length > 0 then
            ⟨true, imageId,
             (resp.filter (fun item => item.untagged ≠ "")).map (·.untagged)⟩
          else ⟨false, "", []⟩
        ⟨some (formatResponse now (HandlerData.imageRemoved result)),
         [ClientCall.imageRemove imageId force]⟩

/-- The `tail` extraction of `containerLogsHandler`: `"100"` when absent
or not a number, `"all"` for negative values, otherwise the decimal
rendering of the Go `int` truncation. -/
def tailParam (p : Params) : String :=
  match asNum p "tail" with
  | some q => if q.isNeg then "all" else toString q.toGoInt
  | none => "100"

/-- `containerLogsHandler`: one `ContainerLogs` call with the assembled
options, then `io.ReadAll` of the returned reader. -/
def containerLogsTool (now : Nat) (p : Params)
    (o : Except String (Except String String)) : HandlerOut :=
  match requiredStr p "container_id" with
  | none => ⟨some (formatErrorResponse now "container_id is required"), []⟩
  | some cid =>
    let follow := (asBool p "follow").getD false
    let timestamps := (asBool p "timestamps").getD false
    let tail := tailParam p
    let opts : LogsCallOptions := ⟨true, true, follow, timestamps, tail⟩
    match o with
    | Except.error e =>
        ⟨some (formatErrorResponse now ("failed to get container logs: " ++ e)),
         [ClientCall.containerLogs cid opts]⟩
    | Except.ok (Except.error e) =>
        ⟨some (formatErrorResponse now ("failed to read logs: " ++ e)),
         [ClientCall.containerLogs cid opts]⟩
    | Except.ok (Except.ok logs) =>
        ⟨some (formatResponse now (HandlerData.logs ⟨cid, logs⟩)),
         [ClientCall.containerLogs cid opts]⟩

/-- `inspectContainerHandler` (the inspect result is opaque external
data, already modelled as JSON). -/
def inspectContainerTool (now : Nat) (p : Params)
    (o : Except String JValue) : HandlerOut :=
  match requiredStr p "container_id" with
  | none => ⟨some (formatErrorResponse now "container_id is required"), []⟩
  | some cid =>
    match o with
    | Except.error e =>
        ⟨some (formatErrorResponse now ("failed to inspect container: " ++ e)),
         [ClientCall.containerInspect cid]⟩
    | Except.ok details =>
        ⟨some (formatResponse now
           (HandlerData.inspect ⟨cid, "container", details⟩)),
         [ClientCall.containerInspect cid]⟩

/-- `inspectImageHandler`. -/
def inspectImageTool (now : Nat) (p : Params)
    (o : Except String JValue) : HandlerOut :=
  match requiredStr p "image" with
  | none => ⟨some (formatErrorResponse now "image is required"), []⟩
  | some imageId =>
    match o with
    | Except.error e =>
        ⟨some (formatErrorResponse now ("failed to inspect image: " ++ e)),
         [ClientCall.imageInspectRaw imageId]⟩
    | Except.ok details =>
        ⟨some (formatResponse now
           (HandlerData.inspect ⟨imageId, "image", details⟩)),
         [ClientCall.imageInspectRaw imageId]⟩

/-- The image-ID extraction of `buildImageHandler`: only when
`"Successfully built "` occurs at a positive index, take up to the next
newline (if at positive index) and trim. -/
def extractImageId (outputStr : String) : String :=
  match strIndex outputStr "Successfully built " with
  | some idIndex =>
      if idIndex > 0 then
        let idPart : String := String.mk (outputStr.toList.drop (idIndex + 18))
        match strIndex idPart "\n" with
        | some nl => if nl > 0 then trimSpace (String.mk (idPart.toList.take nl)) else ""
        | none => ""
      else ""
  | none => ""

/-- Oracle for `buildImageHandler`: the `os.Stat` existence check on the
Dockerfile, the `archive.TarWithOptions` result, and — if the build is
invoked — the `ImageBuild` outcome with its `io.ReadAll` body. -/
structure BuildOracle where
  dockerfileExists : Bool
  tarResult : Except String Unit
  buildResult : Except String (Except String String)

/-- `buildImageHandler`: validation, Dockerfile check, tar, a single
`ImageBuild` call, then the `"Successfully built"` scan of the output.  A
failed build (no such marker) is returned through `formatResponse` with
an inner `BuildImageResponse` whose `success` is false. -/
def buildImageTool (now : Nat) (p : Params) (o : BuildOracle) : HandlerOut :=
  match requiredStr p "context_path" with
  | none => ⟨some (formatErrorResponse now "context_path is required"), []⟩
  | some _contextPath =>
    let dockerfileName := match asString p "dockerfile" with
      | some df => if df = "" then "Dockerfile" else df
      | none => "Dockerfile"
    match requiredStr p "tag" with
    | none => ⟨some (formatErrorResponse now "tag is required"), []⟩
    | some tag =>
      let noCache := (asBool p "no_cache").getD false
      let pull := (asBool p "pull").getD false
      if ¬ o.dockerfileExists then
        ⟨some (formatErrorResponse now
           ("dockerfile " ++ dockerfileName ++ " not found in context")), []⟩
      else
        match o.tarResult with
        | Except.error e =>
            ⟨some (formatErrorResponse now ("failed to create build context: " ++ e)), []⟩
        | Except.ok _ =>
          let call := ClientCall.imageBuild dockerfileName [tag] noCache pull true
          match o.buildResult with
          | Except.error e =>
              ⟨some (formatErrorResponse now ("failed to build image: " ++ e)), [call]⟩
          | Except.ok (Except.error e) =>
              ⟨some (formatErrorResponse now ("failed to read build output: " ++ e)), [call]⟩
          | Except.ok (Except.ok outputStr) =>
              if ¬ strContains outputStr "Successfully built" then
                ⟨some (formatResponse now (HandlerData.build
                   ⟨false, "", [], "Build failed, check build output"⟩)), [call]⟩
              else
                ⟨some (formatResponse now (HandlerData.build
                   ⟨true, extractImageId outputStr, [tag], ""⟩)), [call]⟩

/-! ## Tool registration (`setupServer` of `src/main.go`): the named
tools, their declared argument schemas and the handler each dispatches
to. -/

/-- Declared argument kinds (`mcp.WithString` / `WithBoolean` /
`WithNumber` / `WithArray` / `WithObject`). -/
inductive ArgType where
  | string
  | boolean
  | number
  | array
  | object
deriving DecidableEq, Repr

/-- One declared argument of a tool schema. -/
structure ToolArg where
  name : String
  type : ArgType
  required : Bool
deriving DecidableEq, Repr

/-- The handler a registered tool dispatches to. -/
inductive HandlerId where
  | listContainers
  | execCommand
  | pullImage
  | listImages
  | search
  | createContainer
  | startContainer
  | stopContainer
  | restartContainer
  | removeContainer
  | removeImage
  | logs
  | inspectContainer
  | inspectImage
  | buildImage
deriving DecidableEq, Repr

/-- A tool registered with `srv.AddTool`. -/
structure ToolReg where
  name : String
  args : List ToolArg
  handler : HandlerId
deriving DecidableEq, Repr

/-- The fifteen `srv.AddTool` registrations of `setupServer`, in source
order. -/
def registeredTools : List ToolReg :=
  [⟨"list_containers",
    [⟨"all", ArgType.boolean, false⟩],
    HandlerId.listContainers⟩,
   ⟨"exec_command",
    [⟨"container_id", ArgType.string, true⟩,
     ⟨"command", ArgType.string, true⟩],
    HandlerId.execCommand⟩,
   ⟨"pull_image",
    [⟨"image_name", ArgType.string, true⟩],
    HandlerId.pullImage⟩,
   ⟨"list_images",
    [⟨"all", ArgType.boolean, false⟩],
    HandlerId.listImages⟩,
   ⟨"search",
    [⟨"term", ArgType.string, true⟩,
     ⟨"limit", ArgType.number, false⟩],
    HandlerId.search⟩,
   ⟨"create_container",
    [⟨"image", ArgType.string, true⟩,
     ⟨"name", ArgType.string, true⟩,
     ⟨"command", ArgType.array, false⟩,
     ⟨"env", ArgType.array, false⟩,
     ⟨"ports", ArgType.object, false⟩,
     ⟨"volumes", ArgType.array, false⟩,
     ⟨"working_dir", ArgType.string, false⟩,
     ⟨"network_mode", ArgType.string, false⟩,
     ⟨"restart_policy", ArgType.string, false⟩,
     ⟨"auto_remove", ArgType.boolean, false⟩],
    HandlerId.createContainer⟩,
   ⟨"start_container",
    [⟨"container_id", ArgType.string, true⟩],
    HandlerId.startContainer⟩,
   ⟨"stop_container",
    [⟨"container_id", ArgType.string, true⟩,
     ⟨"timeout", ArgType.number, false⟩],
    HandlerId.stopContainer⟩,
   ⟨"restart_container",
    [⟨"container_id", ArgType.string, true⟩,
     ⟨"timeout", ArgType.number, false⟩],
    HandlerId.restartContainer⟩,
   ⟨"remove_container",
    [⟨"container_id", ArgType.string, true⟩,
     ⟨"force", ArgType.boolean, false⟩,
     ⟨"volumes", ArgType.boolean, false⟩],
    HandlerId.removeContainer⟩,
   ⟨"remove_image",
    [⟨"image", ArgType.string, true⟩,
     ⟨"force", ArgType.boolean, false⟩],
    HandlerId.removeImage⟩,
   ⟨"logs",
    [⟨"container_id", ArgType.string, true⟩,
     ⟨"follow", ArgType.boolean, false⟩,
     ⟨"timestamps", ArgType.boolean, false⟩,
     ⟨"tail", ArgType.number, false⟩],
    HandlerId.logs⟩,
   ⟨"inspect_container",
    [⟨"container_id", ArgType.string, true⟩],
    HandlerId.inspectContainer⟩,
   ⟨"inspect_image",
    [⟨"image", ArgType.string, true⟩],
    HandlerId.inspectImage⟩,
   ⟨"build_image",
    [⟨"context_path", ArgType.string, true⟩,
     ⟨"dockerfile", ArgType.string, false⟩,
     ⟨"tag", ArgType.string, true⟩,
     ⟨"no_cache", ArgType.boolean, false⟩,
     ⟨"pull", ArgType.boolean, false⟩],
    HandlerId.buildImage⟩]

/-! ## Predicates used by the verification statements. -/

/-- A handler outcome that is a pure validation failure: an error
envelope whose message ends in `"is required"`, with no delegated call. -/
def failsRequired (now : Nat) (out : HandlerOut) : Prop :=
  ∃ m, strHasSuffix m "is required" = true
    ∧ out = ⟨some (formatErrorResponse now m), []⟩

/-- Every response a handler produces is either a success envelope
(`formatResponse`) or an error envelope with a non-empty message. -/
def wellFormedOut (now : Nat) (out : HandlerOut) : Prop :=
  match out.response with
  | none => True
  | some r =>
      (∃ d, r = formatResponse now d)
      ∨ (∃ m, m ≠ "" ∧ r = formatErrorResponse now m)

/-- A ports key on which the `main.go` loop's unguarded
`strings.Split(..., "/")[1]` indexes out of bounds: it splits into
exactly two on `':'` and its container-port part contains no `'/'`. -/
def portKeyPanics (k : String) : Prop :=
  (splitChar k ':').length = 2
    ∧ (splitChar ((splitChar k ':').getD 1 "") '/').length = 1

instance (k : String) : Decidable (portKeyPanics k) := by
  unfold portKeyPanics
  exact inferInstance

/-- The operation `n` is registered as a tool with a non-empty declared
argument schema, dispatched to handler `h`. -/
def opRegistered (n : String) (h : HandlerId) : Prop :=
  ∃ t ∈ registeredTools, t.name = n ∧ t.handler = h ∧ t.args ≠ []

instance (n : String) (h : HandlerId) : Decidable (opRegistered n h) := by
  unfold opRegistered
  exact inferInstance

/-! ## Helper lemmas. -/

theorem strAppend_ne_empty {a b : String} (h : a ≠ "") : a ++ b ≠ "" := by
  intro hc
  apply h
  cases a with
  | mk l =>
    cases b with
    | mk m =>
      have hd : l ++ m = [] := congrArg String.data hc
      rcases List.append_eq_nil.mp hd with ⟨h1, _⟩
      simp [h1]

theorem jnumNeg_iff (q : JNumber) (h : 0 < q.den) :
    q.isNeg = true ↔ q.toRat < 0 := by
  have hden : (0 : ℚ) < (q.den : ℚ) := by exact_mod_cast h
  unfold JNumber.isNeg JNumber.toRat
  rw [decide_eq_true_eq, div_neg_iff]
  constructor
  · intro hn
    exact Or.inr ⟨by exact_mod_cast hn, hden⟩
  · rintro (⟨_, hlt⟩ | ⟨hn, _⟩)
    · exact absurd hden (not_lt.mpr (le_of_lt hlt))
    · exact_mod_cast hn

theorem sendAll_of_le (es : List ProgressEvent) :
    ∀ n, n + es.length ≤ chanCapacity → sendAll es n = some (n + es.length) := by
  induction es with
  | nil => intro n _; simp [sendAll]
  | cons e es ih =>
      intro n h
      have hn : n < chanCapacity := by
        simp only [List.length_cons] at h
        omega
      have := ih (n + 1) (by simp only [List.length_cons] at h; omega)
      simp only [sendAll, if_pos hn, this, List.length_cons]
      congr 1
      omega

theorem sendAll_none_of_gt (es : List ProgressEvent) :
    ∀ n, n ≤ chanCapacity → chanCapacity < n + es.length → sendAll es n = none := by
  induction es with
  | nil => intro n h1 h2; simp at h2; omega
  | cons e es ih =>
      intro n h1 h2
      by_cases hn : n < chanCapacity
      · have := ih (n + 1) (by omega) (by simp only [List.length_cons] at h2; omega)
        simp only [sendAll, if_pos hn, this]
      · simp only [sendAll, if_neg hn]

theorem shape_ok (now : Nat) (d : HandlerData) (calls : List ClientCall) :
    wellFormedOut now ⟨some (formatResponse now d), calls⟩ :=
  Or.inl ⟨d, rfl⟩

theorem shape_err (now : Nat) (m : String) (calls : List ClientCall)
    (hm : m ≠ "") : wellFormedOut now ⟨some (formatErrorResponse now m), calls⟩ :=
  Or.inr ⟨m, hm, rfl⟩

theorem shape_none (now : Nat) (calls : List ClientCall) :
    wellFormedOut now ⟨none, calls⟩ :=
  trivial

theorem splitCharAux_length_pos (sep : Char) :
    ∀ (cs cur : List Char), 0 < (splitCharAux sep cs cur).length := by
  intro cs
  induction cs with
  | nil => intro cur; simp [splitCharAux]
  | cons c cs ih =>
      intro cur
      unfold splitCharAux
      by_cases h : c = sep <;> simp [h, ih]

theorem splitChar_length_pos (s : String) (sep : Char) :
    0 < (splitChar s sep).length :=
  splitCharAux_length_pos sep s.toList []

theorem portStepMain_none_iff (acc : List (String × List PortBinding) × List String)
    (k : String) : portStepMain acc k = none ↔ portKeyPanics k := by
  have hpos : 0 < (splitChar ((splitChar k ':').getD 1 "") '/').length :=
    splitChar_length_pos _ _
  unfold portStepMain portKeyPanics
  by_cases h2 : (splitChar k ':').length = 2
  · simp only [h2, ne_eq, not_true_eq_false, if_false, true_and]
    cases hg : (splitChar ((splitChar k ':').getD 1 "") '/').get? 1 with
    | none =>
        have hlen : (splitChar ((splitChar k ':').getD 1 "") '/').length ≤ 1 :=
          List.get?_eq_none.mp hg
        simp only [hg]
        exact ⟨fun _ => by omega, fun _ => by trivial⟩
    | some proto =>
        have hlen : 1 < (splitChar ((splitChar k ':').getD 1 "") '/').length :=
          (List.get?_eq_some.mp hg).choose
        simp only [hg]
        cases hnp : natNewPort proto ((splitChar ((splitChar k ':').getD 1 "") '/').headD "") <;>
          simp only [hnp] <;>
          exact ⟨fun h => absurd h (Option.some_ne_none _), fun h => absurd h (by omega)⟩
  · simp [h2]

theorem parsePortsMainAux_none_iff :
    ∀ (keys : List String) (acc),
      parsePortsMainAux acc keys = none ↔ ∃ k ∈ keys, portKeyPanics k := by
  intro keys
  induction keys with
  | nil => intro acc; simp [parsePortsMainAux]
  | cons k ks ih =>
      intro acc
      unfold parsePortsMainAux
      cases hstep : portStepMain acc k with
      | none =>
          simp only [hstep]
          exact ⟨fun _ => ⟨k, List.mem_cons_self k ks,
                   (portStepMain_none_iff acc k).mp hstep⟩,
                 fun _ => by trivial⟩
      | some acc2 =>
          simp only [hstep]
          rw [ih acc2]
          constructor
          · rintro ⟨k', hk', hp⟩
            exact ⟨k', List.mem_cons_of_mem _ hk', hp⟩
          · rintro ⟨k', hk', hp⟩
            rcases List.mem_cons.mp hk' with h | h
            · have hn := (portStepMain_none_iff acc k').mpr hp
              rw [h] at hn
              rw [hn] at hstep
              cases hstep
            · exact ⟨k', h, hp⟩

/-! ## Claim theorems. -/

/-- C6: for each operation in the set list/create/start/stop/remove
containers, pull/list/search/remove images, logs, exec, build, and
inspect (containers and images), a named tool with a declared argument
schema is registered with the MCP server and dispatched to a handler
implementing that operation. -/
theorem c6_tools_registered :
    opRegistered "list_containers" HandlerId.listContainers
    ∧ opRegistered "create_container" HandlerId.createContainer
    ∧ opRegistered "start_container" HandlerId.startContainer
    ∧ opRegistered "stop_container" HandlerId.stopContainer
    ∧ opRegistered "remove_container" HandlerId.removeContainer
    ∧ opRegistered "pull_image" HandlerId.pullImage
    ∧ opRegistered "list_images" HandlerId.listImages
    ∧ opRegistered "search" HandlerId.search
    ∧ opRegistered "remove_image" HandlerId.removeImage
    ∧ opRegistered "logs" HandlerId.logs
    ∧ opRegistered "exec_command" HandlerId.execCommand
    ∧ opRegistered "build_image" HandlerId.buildImage
    ∧ opRegistered "inspect_container" HandlerId.inspectContainer
    ∧ opRegistered "inspect_image" HandlerId.inspectImage := by
  decide

/-- C9 (counterexample): in the `main.go` variant, the ports key
`"8080:80"` — two parts on `':'`, no `'/protocol'` suffix — makes the
unguarded `strings.Split(containerPortProto, "/")[1]` index out of
bounds: the port loop panics (`none`) and `create_container` produces no
response and performs no delegated call, refuting "parsing each key is
total and never panics" for this variant. -/
theorem c9_port_parse_counterexample :
    parsePortsMain ["8080:80"] = none
    ∧ (createContainerTool 0
        [("image", JValue.str "nginx"), ("name", JValue.str "web"),
         ("ports", JValue.obj [("8080:80", JValue.obj [])])]
        (Except.ok "cid")).response = none
    ∧ (createContainerTool 0
        [("image", JValue.str "nginx"), ("name", JValue.str "web"),
         ("ports", JValue.obj [("8080:80", JValue.obj [])])]
        (Except.ok "cid")).calls = [] := by
  exact ⟨by decide, rfl, by decide⟩

/-- C9 (amended): in the `main.go` variant the port loop panics exactly
on a key that splits into two on `':'` whose container-port part has no
`'/'`; keys that do not split into exactly two parts are skipped, and a
well-formed `host:port/proto` key is bound.  The `pkg/handlers` variant
is total: arity-mismatched keys are skipped, and a key lacking the
`'/protocol'` suffix has `"/tcp"` appended but passes the whole suffixed
string to `nat.NewPort` as the port, so a plain numeric port such as
`"8080:80"` fails to parse and is skipped rather than bound to tcp. -/
theorem c9_port_parse_amended :
    (∀ keys : List String,
        parsePortsMain keys = none ↔ ∃ k ∈ keys, portKeyPanics k)
    ∧ (∀ acc k, (splitChar k ':').length ≠ 2 → portStepHandlers acc k = acc)
    ∧ portStepHandlers ([], []) "8080:80" = ([], [])
    ∧ parsePortsMain ["8080:80/tcp"]
        = some ([("80/tcp", [⟨"0.0.0.0", "8080"⟩])], ["80/tcp"])
    ∧ parsePortsHandlers ["8080:80/tcp"]
        = ([("80/tcp", [⟨"0.0.0.0", "8080"⟩])], ["80/tcp"]) := by
  refine ⟨fun keys => parsePortsMainAux_none_iff keys ([], []), ?_, by decide, by decide, by decide⟩
  intro acc k h
  unfold portStepHandlers
  simp [h]

/-- C9 (amended) witness: concrete instances of the quantified parts. -/
theorem c9_port_parse_amended_witness :
    parsePortsMain ["8080:80"] = none ∧ portStepHandlers ([], []) "no-colon-key" = ([], []) :=
  ⟨(c9_port_parse_amended.1 ["8080:80"]).mpr ⟨"8080:80", by decide, by decide⟩,
   c9_port_parse_amended.2.1 ([], []) "no-colon-key" (by decide)⟩

/-- C10: for `remove_image`, when the delegated image-remove call
succeeds, an empty delete-response list yields data
`{removed: false, image_id: ""}` with no `untagged_ids` key, and a
non-empty list yields `{removed: true, image_id: <requested id>}` with
`untagged_ids` exactly the non-empty `Untagged` entries in order. -/
theorem c10_remove_image (now : Nat) (p : Params) (imageId : String)
    (resp : List DeleteResponseItem) (h : requiredStr p "image" = some imageId) :
    (resp = [] →
       (removeImageTool now p (Except.ok resp)).response
         = some (formatResponse now (HandlerData.imageRemoved ⟨false, "", []⟩)))
    ∧ (resp ≠ [] →
       (removeImageTool now p (Except.ok resp)).response
         = some (formatResponse now (HandlerData.imageRemoved
             ⟨true, imageId, (resp.filter (fun item => item.untagged ≠ "")).map (·.untagged)⟩)))
    ∧ ImageRemovedResponse.toJson ⟨false, "", []⟩
        = JValue.obj [("removed", JValue.bool false), ("image_id", JValue.str "")] := by
  refine ⟨?_, ?_, rfl⟩
  · intro he
    subst he
    simp [removeImageTool, h]
  · intro hne
    have hlen : 0 < resp.length := List.length_pos.mpr hne
    simp [removeImageTool, h, hlen]

/-- C10 witness: removing image `"img1"` with a one-entry delete
response whose `Untagged` is empty. -/
theorem c10_remove_image_witness :
    requiredStr [("image", JValue.str "img1")] "image" = some "img1"
    ∧ ([(⟨"", "del1"⟩ : DeleteResponseItem)] : List DeleteResponseItem) ≠ []
    ∧ (removeImageTool 5 [("image", JValue.str "img1")]
         (Except.ok [⟨"", "del1"⟩])).response
        = some (formatResponse 5 (HandlerData.imageRemoved ⟨true, "img1", []⟩)) :=
  ⟨rfl, by decide,
   (c10_remove_image 5 [("image", JValue.str "img1")] "img1" [⟨"", "del1"⟩] rfl).2.1 (by decide)⟩

/-- C7: for the logs operation, the validated optional fields are
forwarded to the delegated `ContainerLogs` call as follows: `follow` and
`timestamps` equal the given booleans and default to false; `tail` is
`"all"` when the given number is negative, otherwise the decimal string
of its Go `int` truncation, and `"100"` when the argument is absent or
not a number. -/
theorem c7_logs_options (now : Nat) (p : Params) (cid : String)
    (o : Except String (Except String String))
    (h : requiredStr p "container_id" = some cid) :
    ∃ opts : LogsCallOptions,
      (containerLogsTool now p o).calls = [ClientCall.containerLogs cid opts]
      ∧ opts.follow = (asBool p "follow").getD false
      ∧ opts.timestamps = (asBool p "timestamps").getD false
      ∧ (asBool p "follow" = none → opts.follow = false)
      ∧ (asBool p "timestamps" = none → opts.timestamps = false)
      ∧ (∀ q : JNumber, asNum p "tail" = some q → 0 < q.den → q.toRat < 0 →
           opts.tail = "all")
      ∧ (∀ q : JNumber, asNum p "tail" = some q → 0 < q.den → 0 ≤ q.toRat →
           opts.tail = toString q.toGoInt)
      ∧ (asNum p "tail" = none → opts.tail = "100")
      ∧ opts.showStdout = true ∧ opts.showStderr = true := by
  refine ⟨⟨true, true, (asBool p "follow").getD false,
          (asBool p "timestamps").getD false, tailParam p⟩,
        ?_, rfl, rfl, fun hf => by simp [hf], fun ht => by simp [ht],
        ?_, ?_, fun hn => by simp [tailParam, hn], rfl, rfl⟩
  · rcases o with e | r
    · simp [containerLogsTool, h]
    · rcases r with e2 | logs <;> simp [containerLogsTool, h]
  · intro q hq hden hneg
    have hb : q.isNeg = true := (jnumNeg_iff q hden).mpr hneg
    simp [tailParam, hq, hb]
  · intro q hq hden hnonneg
    have hb : q.isNeg = false := by
      cases hb : q.isNeg
      · rfl
      · exact absurd ((jnumNeg_iff q hden).mp hb) (not_lt.mpr hnonneg)
    simp [tailParam, hq, hb]

/-- C7 witness: concrete logs request with no `tail` argument. -/
theorem c7_logs_options_witness :
    requiredStr [("container_id", JValue.str "c0")] "container_id" = some "c0"
    ∧ ∃ opts : LogsCallOptions,
        (containerLogsTool 3 [("container_id", JValue.str "c0")]
           (Except.ok (Except.ok "logline"))).calls
          = [ClientCall.containerLogs "c0" opts]
        ∧ opts.tail = "100" ∧ opts.follow = false := by
  refine ⟨rfl, ?_⟩
  obtain ⟨opts, h1, h2, _, h4, _, _, _, h8, _⟩ :=
    c7_logs_options 3 [("container_id", JValue.str "c0")] "c0"
      (Except.ok (Except.ok "logline")) rfl
  exact ⟨opts, h1, h8 rfl, h4 rfl⟩

/-- C5 (counterexample): a pull stream of 101 progress events ending in
EOF produces no response at all — the 101st send into the never-drained
progress channel blocks forever — refuting "the handler decodes events
one at a time until EOF, then returns a success envelope" as stated for
every stream. -/
theorem c5_pull_counterexample :
    (pullImageTool 0 [("image_name", JValue.str "alpine:latest")]
        (Except.ok ⟨List.replicate 101 ⟨"downloading", 0, 0, "layer1"⟩, none⟩)).response
      = none
    ∧ (List.replicate 101 (⟨"downloading", 0, 0, "layer1"⟩ : ProgressEvent)).length = 101 := by
  exact ⟨rfl, by decide⟩

/-- C5 (amended): the pull code path is a straight decode loop with no
retry or partial-failure logic — provided the stream holds at most 100
events (the capacity of the never-drained progress channel): decoding
events until EOF returns the success envelope with data
`{image_name, status: "success", complete: true}`; a decode error other
than EOF returns an error envelope, discarding the consumed progress
(the response is independent of the decoded events); exactly one
`ImagePull` call is delegated. -/
theorem c5_pull_decode_loop (now : Nat) (p : Params) (name : String)
    (st : PullStream) (h : requiredStr p "image_name" = some name)
    (hlen : st.events.length ≤ chanCapacity) :
    (st.decodeError = none →
       (pullImageTool now p (Except.ok st)).response
         = some (formatResponse now (HandlerData.pullProgress ⟨name, "success", true⟩)))
    ∧ (∀ m, st.decodeError = some m →
       (pullImageTool now p (Except.ok st)).response
         = some (formatErrorResponse now ("failed to decode progress event: " ++ m)))
    ∧ (pullImageTool now p (Except.ok st)).calls = [ClientCall.imagePull name] := by
  have hs : sendAll st.events 0 = some st.events.length := by
    simpa using sendAll_of_le st.events 0 (by simpa using hlen)
  refine ⟨fun hde => ?_, fun m hde => ?_, ?_⟩
  · simp [pullImageTool, h, hs, hde]
  · simp [pullImageTool, h, hs, hde]
  · cases hde : st.decodeError <;> simp [pullImageTool, h, hs, hde]

/-- C5 (amended) witness: a three-event EOF stream for `"busybox"`. -/
theorem c5_pull_decode_loop_witness :
    requiredStr [("image_name", JValue.str "busybox")] "image_name" = some "busybox"
    ∧ (List.replicate 3 (⟨"pulling", 1, 2, "l1"⟩ : ProgressEvent)).length ≤ chanCapacity
    ∧ (pullImageTool 7 [("image_name", JValue.str "busybox")]
         (Except.ok ⟨List.replicate 3 ⟨"pulling", 1, 2, "l1"⟩, none⟩)).response
        = some (formatResponse 7 (HandlerData.pullProgress ⟨"busybox", "success", true⟩)) :=
  ⟨rfl, by decide,
   (c5_pull_decode_loop 7 [("image_name", JValue.str "busybox")] "busybox"
      ⟨List.replicate 3 ⟨"pulling", 1, 2, "l1"⟩, none⟩ rfl (by decide)).1 rfl⟩

/-- C8: the pull handler sends every decoded progress event into a
buffered channel of capacity 100 from which no goroutine ever receives;
once past validation with a successfully opened stream, it produces a
response if and only if the stream holds at most 100 events — with more,
the 101st send blocks forever and no response is produced. -/
theorem c8_progress_channel_blocks (now : Nat) (p : Params) (name : String)
    (st : PullStream) (h : requiredStr p "image_name" = some name) :
    (pullImageTool now p (Except.ok st)).response ≠ none
      ↔ st.events.length ≤ chanCapacity := by
  constructor
  · intro hne
    by_contra hgt
    push_neg at hgt
    have hn : sendAll st.events 0 = none :=
      sendAll_none_of_gt st.events 0 (by omega) (by omega)
    exact hne (by simp [pullImageTool, h, hn])
  · intro hle
    have hs : sendAll st.events 0 = some st.events.length := by
      simpa using sendAll_of_le st.events 0 (by simpa using hle)
    cases hde : st.decodeError <;> simp [pullImageTool, h, hs, hde]

/-- C8 witness: the empty stream (0 events) does produce a response. -/
theorem c8_progress_channel_blocks_witness :
    requiredStr [("image_name", JValue.str "alpine")] "image_name" = some "alpine"
    ∧ ((pullImageTool 0 [("image_name", JValue.str "alpine")]
          (Except.ok ⟨[], none⟩)).response ≠ none
        ↔ ([] : List ProgressEvent).length ≤ chanCapacity) :=
  ⟨rfl, c8_progress_channel_blocks 0 [("image_name", JValue.str "alpine")]
          "alpine" ⟨[], none⟩ rfl⟩

/-- C4: for every tool with a required string parameter, if that
argument is absent, not a string, or the empty string, the handler
performs only the validation step: it returns an error envelope whose
message ends in `"is required"` and makes no delegated call. -/
theorem c4_required_validation (now : Nat) (p : Params)
    (oE : ExecOracle) (oP : Except String PullStream)
    (oS : Except String (List EngineSearchItem))
    (oC : Except String String) (oSt oSp oR oRm : Except String Unit)
    (oRI : Except String (List DeleteResponseItem))
    (oLg : Except String (Except String String))
    (oIC oII : Except String JValue) (oB : BuildOracle) :
    (requiredStr p "container_id" = none → failsRequired now (execCommandTool now p oE))
    ∧ (requiredStr p "command" = none → failsRequired now (execCommandTool now p oE))
    ∧ (requiredStr p "image_name" = none → failsRequired now (pullImageTool now p oP))
    ∧ (requiredStr p "term" = none → failsRequired now (searchImageTool now p oS))
    ∧ (requiredStr p "image" = none → failsRequired now (createContainerTool now p oC))
    ∧ (requiredStr p "name" = none → failsRequired now (createContainerTool now p oC))
    ∧ (requiredStr p "container_id" = none → failsRequired now (startContainerTool now p oSt))
    ∧ (requiredStr p "container_id" = none → failsRequired now (stopContainerTool now p oSp))
    ∧ (requiredStr p "container_id" = none → failsRequired now (restartContainerTool now p oR))
    ∧ (requiredStr p "container_id" = none → failsRequired now (removeContainerTool now p oRm))
    ∧ (requiredStr p "image" = none → failsRequired now (removeImageTool now p oRI))
    ∧ (requiredStr p "container_id" = none → failsRequired now (containerLogsTool now p oLg))
    ∧ (requiredStr p "container_id" = none → failsRequired now (inspectContainerTool now p oIC))
    ∧ (requiredStr p "image" = none → failsRequired now (inspectImageTool now p oII))
    ∧ (requiredStr p "context_path" = none → failsRequired now (buildImageTool now p oB))
    ∧ (requiredStr p "tag" = none → failsRequired now (buildImageTool now p oB)) := by
  refine ⟨?_, ?_, ?_, ?_, ?_, ?_, ?_, ?_, ?_, ?_, ?_, ?_, ?_, ?_, ?_, ?_⟩
  · intro h
    exact ⟨"container_id is required", by decide, by simp [execCommandTool, h]⟩
  · intro h
    cases h1 : requiredStr p "container_id" with
    | none => exact ⟨"container_id is required", by decide, by simp [execCommandTool, h1]⟩
    | some cid => exact ⟨"command is required", by decide, by simp [execCommandTool, h1, h]⟩
  · intro h
    exact ⟨"image_name is required", by decide, by simp [pullImageTool, h]⟩
  · intro h
    exact ⟨"search term is required", by decide, by simp [searchImageTool, h]⟩
  · intro h
    exact ⟨"image is required", by decide, by simp [createContainerTool, h]⟩
  · intro h
    cases h1 : requiredStr p "image" with
    | none => exact ⟨"image is required", by decide, by simp [createContainerTool, h1]⟩
    | some img => exact ⟨"name is required", by decide, by simp [createContainerTool, h1, h]⟩
  · intro h
    exact ⟨"container_id is required", by decide, by simp [startContainerTool, h]⟩
  · intro h
    exact ⟨"container_id is required", by decide, by simp [stopContainerTool, h]⟩
  · intro h
    exact ⟨"container_id is required", by decide, by simp [restartContainerTool, h]⟩
  · intro h
    exact ⟨"container_id is required", by decide, by simp [removeContainerTool, h]⟩
  · intro h
    exact ⟨"image is required", by decide, by simp [removeImageTool, h]⟩
  · intro h
    exact ⟨"container_id is required", by decide, by simp [containerLogsTool, h]⟩
  · intro h
    exact ⟨"container_id is required", by decide, by simp [inspectContainerTool, h]⟩
  · intro h
    exact ⟨"image is required", by decide, by simp [inspectImageTool, h]⟩
  · intro h
    exact ⟨"context_path is required", by decide, by simp [buildImageTool, h]⟩
  · intro h
    cases h1 : requiredStr p "context_path" with
    | none => exact ⟨"context_path is required", by decide, by simp [buildImageTool, h1]⟩
    | some cp => exact ⟨"tag is required", by decide, by simp [buildImageTool, h1, h]⟩

/-- C4 witness: the empty argument map fails `exec_command` validation
with no delegated call. -/
theorem c4_required_validation_witness :
    requiredStr ([] : Params) "container_id" = none
    ∧ failsRequired 0 (execCommandTool 0 [] ⟨Except.ok "", Except.ok (Except.ok "")⟩) :=
  ⟨rfl,
   (c4_required_validation 0 [] ⟨Except.ok "", Except.ok (Except.ok "")⟩
      (Except.ok ⟨[], none⟩) (Except.ok []) (Except.ok "") (Except.ok ())
      (Except.ok ()) (Except.ok ()) (Except.ok ()) (Except.ok [])
      (Except.ok (Except.ok "")) (Except.ok JValue.null) (Except.ok JValue.null)
      ⟨true, Except.ok (), Except.ok (Except.ok "")⟩).1 rfl⟩

/-- C2 (counterexample): on the happy path, `exec_command` delegates
twice to the engine client — `ContainerExecCreate` then
`ContainerExecAttach` — refuting "no handler makes more than one
delegated client call per request". -/
theorem c2_single_call_counterexample :
    (execCommandTool 0 [("container_id", JValue.str "c1"), ("command", JValue.str "ls")]
        ⟨Except.ok "eid", Except.ok (Except.ok "out")⟩).calls
      = [ClientCall.containerExecCreate "c1" ["sh", "-c", "ls"] true true,
         ClientCall.containerExecAttach "eid"]
    ∧ ¬ (execCommandTool 0 [("container_id", JValue.str "c1"), ("command", JValue.str "ls")]
        ⟨Except.ok "eid", Except.ok (Except.ok "out")⟩).calls.length ≤ 1 := by
  exact ⟨by decide, by decide⟩

/-- C2 (amended): every handler performs validation, at most one
delegated engine-client call, and re-serialization — except
`exec_command`, which delegates at most twice: `ContainerExecCreate`
followed, when creation succeeds, by `ContainerExecAttach`. -/
theorem c2_delegation_bound (now : Nat) (p : Params)
    (oL : Except String (List EngineContainer)) (oE : ExecOracle)
    (oP : Except String PullStream) (oI : Except String (List EngineImage))
    (oS : Except String (List EngineSearchItem)) (oC : Except String String)
    (oSt oSp oR oRm : Except String Unit)
    (oRI : Except String (List DeleteResponseItem))
    (oLg : Except String (Except String String))
    (oIC oII : Except String JValue) (oB : BuildOracle) :
    (listContainersTool now p oL).calls.length ≤ 1
    ∧ (pullImageTool now p oP).calls.length ≤ 1
    ∧ (listImagesTool now p oI).calls.length ≤ 1
    ∧ (searchImageTool now p oS).calls.length ≤ 1
    ∧ (createContainerTool now p oC).calls.length ≤ 1
    ∧ (startContainerTool now p oSt).calls.length ≤ 1
    ∧ (stopContainerTool now p oSp).calls.length ≤ 1
    ∧ (restartContainerTool now p oR).calls.length ≤ 1
    ∧ (removeContainerTool now p oRm).calls.length ≤ 1
    ∧ (removeImageTool now p oRI).calls.length ≤ 1
    ∧ (containerLogsTool now p oLg).calls.length ≤ 1
    ∧ (inspectContainerTool now p oIC).calls.length ≤ 1
    ∧ (inspectImageTool now p oII).calls.length ≤ 1
    ∧ (buildImageTool now p oB).calls.length ≤ 1
    ∧ (execCommandTool now p oE).calls.length ≤ 2
    ∧ (∀ cid cmd execId att, requiredStr p "container_id" = some cid →
         requiredStr p "command" = some cmd → oE = ⟨Except.ok execId, att⟩ →
         (execCommandTool now p oE).calls
           = [ClientCall.containerExecCreate cid ["sh", "-c", cmd] true true,
              ClientCall.containerExecAttach execId]) := by
  refine ⟨?_, ?_, ?_, ?_, ?_, ?_, ?_, ?_, ?_, ?_, ?_, ?_, ?_, ?_, ?_, ?_⟩
  · unfold listContainersTool
    repeat' split
    all_goals simp
  · unfold pullImageTool
    repeat' split
    all_goals simp
  · unfold listImagesTool
    repeat' split
    all_goals simp
  · unfold searchImageTool
    repeat' split
    all_goals simp
  · unfold createContainerTool
    repeat' split
    all_goals try simp
    all_goals (split <;> simp)
  · unfold startContainerTool
    repeat' split
    all_goals simp
  · unfold stopContainerTool
    repeat' split
    all_goals simp
  · unfold restartContainerTool
    repeat' split
    all_goals simp
  · unfold removeContainerTool
    repeat' split
    all_goals simp
  · unfold removeImageTool
    repeat' split
    all_goals simp
  · unfold containerLogsTool
    repeat' split
    all_goals simp
  · unfold inspectContainerTool
    repeat' split
    all_goals simp
  · unfold inspectImageTool
    repeat' split
    all_goals simp
  · unfold buildImageTool
    repeat' split
    all_goals simp
  · unfold execCommandTool
    repeat' split
    all_goals simp
  · intro cid cmd execId att h1 h2 hoe
    subst hoe
    rcases att with e | r
    · simp [execCommandTool, h1, h2]
    · rcases r with e2 | out <;> simp [execCommandTool, h1, h2]

/-- C2 (amended) witness: a stop request makes exactly one delegated
call, and the exec trace instance. -/
theorem c2_delegation_bound_witness :
    (stopContainerTool 0 [("container_id", JValue.str "c9")] (Except.ok ())).calls.length ≤ 1 :=
  (c2_delegation_bound 0 [("container_id", JValue.str "c9")]
     (Except.ok []) ⟨Except.ok "", Except.ok (Except.ok "")⟩ (Except.ok ⟨[], none⟩)
     (Except.ok []) (Except.ok []) (Except.ok "") (Except.ok ()) (Except.ok ())
     (Except.ok ()) (Except.ok ()) (Except.ok []) (Except.ok (Except.ok ""))
     (Except.ok JValue.null) (Except.ok JValue.null)
     ⟨true, Except.ok (), Except.ok (Except.ok "")⟩).2.2.2.2.2.2.1

/-- C1 (counterexample): the serialized envelope of a successful
`stop_container` response contains only `success`, `data` and
`timestamp` — `error` and `count` are tagged `omitempty` and are dropped
at their zero values — refuting "the serialized object contains these
five fields". -/
theorem c1_envelope_counterexample :
    (stopContainerTool 0 [("container_id", JValue.str "abc")]
        (Except.ok ())).response.map envelopeKeys
      = some ["success", "data", "timestamp"]
    ∧ "error" ∉ (["success", "data", "timestamp"] : List String)
    ∧ "count" ∉ (["success", "data", "timestamp"] : List String) := by
  exact ⟨rfl, by decide, by decide⟩

/-- C1 (amended): every response envelope is built as
`{success, data, error, count, timestamp}` and serialized with `success`,
`data` and `timestamp` always present; `error` is present exactly on
failure (non-empty message) and `count` exactly when non-zero; the
envelope's count field equals the number of items whenever the result is
a list of n items. -/
theorem c1_envelope_fields (now : Nat) (d : HandlerData) (msg : String)
    (hmsg : msg ≠ "") :
    envelopeKeys (formatResponse now d)
        = ["success", "data"] ++ (if dataCount d ≠ 0 then ["count"] else []) ++ ["timestamp"]
    ∧ (formatResponse now d).count = dataCount d
    ∧ envelopeKeys (formatErrorResponse now msg) = ["success", "data", "error", "timestamp"]
    ∧ (∀ xs : List ContainerInfo,
         (formatResponse now (HandlerData.containers xs)).count = xs.length)
    ∧ (∀ xs : List ImageInfo,
         (formatResponse now (HandlerData.images xs)).count = xs.length)
    ∧ (∀ xs : List SearchResult,
         (formatResponse now (HandlerData.searches xs)).count = xs.length) := by
  refine ⟨?_, rfl, ?_, fun xs => rfl, fun xs => rfl, fun xs => rfl⟩
  · by_cases hc : dataCount d = 0 <;>
      simp [envelopeKeys, serializeEnvelope, formatResponse, hc]
  · simp [envelopeKeys, serializeEnvelope, formatErrorResponse, hmsg]

/-- C1 (amended) witness: a one-element image list yields count 1 and an
error envelope serializes all four of its fields. -/
theorem c1_envelope_fields_witness :
    ("boom" : String) ≠ ""
    ∧ envelopeKeys (formatErrorResponse 2 "boom") = ["success", "data", "error", "timestamp"]
    ∧ (formatResponse 2 (HandlerData.images [⟨"sha256:1", ["t:1"], 10, 20, 1⟩])).count = 1 := by
  have h := c1_envelope_fields 2 (HandlerData.images [⟨"sha256:1", ["t:1"], 10, 20, 1⟩])
    "boom" (by decide)
  exact ⟨by decide, h.2.2.1, h.2.2.2.2.1 [⟨"sha256:1", ["t:1"], 10, 20, 1⟩]⟩

/-- C3 (counterexample): when `ImageBuild` itself succeeds but the build
output lacks `"Successfully built"` — the build itself failed — the
handler returns the failure through `formatResponse`: the envelope has
`success = true` and an empty top-level error, refuting "whenever the
operation fails the returned envelope has success = false ... including
build_image when the build itself fails". -/
theorem c3_success_flag_counterexample :
    (buildImageTool 0 [("context_path", JValue.str "/ctx"), ("tag", JValue.str "app:1")]
        ⟨true, Except.ok (), Except.ok (Except.ok "Step 1/2 : FROM x\nerror occurred\n")⟩).response
      = some (formatResponse 0
          (HandlerData.build ⟨false, "", [], "Build failed, check build output"⟩))
    ∧ (formatResponse 0
        (HandlerData.build ⟨false, "", [], "Build failed, check build output"⟩)).success = true
    ∧ (formatResponse 0
        (HandlerData.build ⟨false, "", [], "Build failed, check build output"⟩)).error = "" := by
  exact ⟨rfl, rfl, rfl⟩

/-- C3 (amended): success envelopes carry `success = true` and an empty
error; error envelopes carry `success = false` and their message; every
tool produces only these two envelope shapes (with every error message
non-empty) — except that `build_image` reports a build whose output
lacks `"Successfully built"` through a `success = true` envelope whose
data is a `BuildImageResponse` with `success = false` and a non-empty
inner error. -/
theorem c3_envelope_flags (now : Nat) (p : Params)
    (oL : Except String (List EngineContainer)) (oE : ExecOracle)
    (oP : Except String PullStream) (oI : Except String (List EngineImage))
    (oS : Except String (List EngineSearchItem)) (oC : Except String String)
    (oSt oSp oR oRm : Except String Unit)
    (oRI : Except String (List DeleteResponseItem))
    (oLg : Except String (Except String String))
    (oIC oII : Except String JValue) (oB : BuildOracle) :
    (∀ d, (formatResponse now d).success = true ∧ (formatResponse now d).error = "")
    ∧ (∀ m, (formatErrorResponse now m).success = false
            ∧ (formatErrorResponse now m).error = m)
    ∧ wellFormedOut now (listContainersTool now p oL)
    ∧ wellFormedOut now (execCommandTool now p oE)
    ∧ wellFormedOut now (pullImageTool now p oP)
    ∧ wellFormedOut now (listImagesTool now p oI)
    ∧ wellFormedOut now (searchImageTool now p oS)
    ∧ wellFormedOut now (createContainerTool now p oC)
    ∧ wellFormedOut now (startContainerTool now p oSt)
    ∧ wellFormedOut now (stopContainerTool now p oSp)
    ∧ wellFormedOut now (restartContainerTool now p oR)
    ∧ wellFormedOut now (removeContainerTool now p oRm)
    ∧ wellFormedOut now (removeImageTool now p oRI)
    ∧ wellFormedOut now (containerLogsTool now p oLg)
    ∧ wellFormedOut now (inspectContainerTool now p oIC)
    ∧ wellFormedOut now (inspectImageTool now p oII)
    ∧ wellFormedOut now (buildImageTool now p oB)
    ∧ (∀ cp tag outputStr, requiredStr p "context_path" = some cp →
         requiredStr p "tag" = some tag → oB.dockerfileExists = true →
         oB.tarResult = Except.ok () →
         oB.buildResult = Except.ok (Except.ok outputStr) →
         strContains outputStr "Successfully built" = false →
         (buildImageTool now p oB).response
           = some (formatResponse now
               (HandlerData.build ⟨false, "", [], "Build failed, check build output"⟩))) := by
  refine ⟨fun d => ⟨rfl, rfl⟩, fun m => ⟨rfl, rfl⟩,
          ?_, ?_, ?_, ?_, ?_, ?_, ?_, ?_, ?_, ?_, ?_, ?_, ?_, ?_, ?_, ?_⟩
  · unfold listContainersTool
    repeat' split
    all_goals
      first
        | exact shape_none _ _
        | exact shape_ok _ _ _
        | exact shape_err _ _ _ (by decide)
        | exact shape_err _ _ _ (strAppend_ne_empty (by decide))
  · unfold execCommandTool
    repeat' split
    all_goals
      first
        | exact shape_none _ _
        | exact shape_ok _ _ _
        | exact shape_err _ _ _ (by decide)
        | exact shape_err _ _ _ (strAppend_ne_empty (by decide))
  · unfold pullImageTool
    repeat' split
    all_goals
      first
        | exact shape_none _ _
        | exact shape_ok _ _ _
        | exact shape_err _ _ _ (by decide)
        | exact shape_err _ _ _ (strAppend_ne_empty (by decide))
  · unfold listImagesTool
    repeat' split
    all_goals
      first
        | exact shape_none _ _
        | exact shape_ok _ _ _
        | exact shape_err _ _ _ (by decide)
        | exact shape_err _ _ _ (strAppend_ne_empty (by decide))
  · unfold searchImageTool
    repeat' split
    all_goals
      first
        | exact shape_none _ _
        | exact shape_ok _ _ _
        | exact shape_err _ _ _ (by decide)
        | exact shape_err _ _ _ (strAppend_ne_empty (by decide))
  · unfold createContainerTool
    repeat' split
    all_goals try dsimp only
    all_goals try (repeat' split)
    all_goals
      first
        | exact shape_none _ _
        | exact shape_ok _ _ _
        | exact shape_err _ _ _ (by decide)
        | exact shape_err _ _ _ (strAppend_ne_empty (by decide))
  · unfold startContainerTool
    repeat' split
    all_goals
      first
        | exact shape_none _ _
        | exact shape_ok _ _ _
        | exact shape_err _ _ _ (by decide)
        | exact shape_err _ _ _ (strAppend_ne_empty (by decide))
  · unfold stopContainerTool
    repeat' split
    all_goals
      first
        | exact shape_none _ _
        | exact shape_ok _ _ _
        | exact shape_err _ _ _ (by decide)
        | exact shape_err _ _ _ (strAppend_ne_empty (by decide))
  · unfold restartContainerTool
    repeat' split
    all_goals
      first
        | exact shape_none _ _
        | exact shape_ok _ _ _
        | exact shape_err _ _ _ (by decide)
        | exact shape_err _ _ _ (strAppend_ne_empty (by decide))
  · unfold removeContainerTool
    repeat' split
    all_goals
      first
        | exact shape_none _ _
        | exact shape_ok _ _ _
        | exact shape_err _ _ _ (by decide)
        | exact shape_err _ _ _ (strAppend_ne_empty (by decide))
  · unfold removeImageTool
    repeat' split
    all_goals
      first
        | exact shape_none _ _
        | exact shape_ok _ _ _
        | exact shape_err _ _ _ (by decide)
        | exact shape_err _ _ _ (strAppend_ne_empty (by decide))
  · unfold containerLogsTool
    repeat' split
    all_goals
      first
        | exact shape_none _ _
        | exact shape_ok _ _ _
        | exact shape_err _ _ _ (by decide)
        | exact shape_err _ _ _ (strAppend_ne_empty (by decide))
  · unfold inspectContainerTool
    repeat' split
    all_goals
      first
        | exact shape_none _ _
        | exact shape_ok _ _ _
        | exact shape_err _ _ _ (by decide)
        | exact shape_err _ _ _ (strAppend_ne_empty (by decide))
  · unfold inspectImageTool
    repeat' split
    all_goals
      first
        | exact shape_none _ _
        | exact shape_ok _ _ _
        | exact shape_err _ _ _ (by decide)
        | exact shape_err _ _ _ (strAppend_ne_empty (by decide))
  · unfold buildImageTool
    repeat' split
    all_goals
      first
        | exact shape_none _ _
        | exact shape_ok _ _ _
        | exact shape_err _ _ _ (by decide)
        | exact shape_err _ _ _ (strAppend_ne_empty (by decide))
        | exact shape_err _ _ _ (strAppend_ne_empty (strAppend_ne_empty (by decide)))
  · intro cp tag outputStr h1 h2 hdf htar hbuild hmarker
    rcases oB with ⟨dfe, tr, br⟩
    simp only [] at hdf htar hbuild
    subst hdf
    subst htar
    subst hbuild
    simp [buildImageTool, h1, h2, hmarker]

/-- C3 (amended) witness: a failing stop request produces a
success = false envelope; its concrete shape instance. -/
theorem c3_envelope_flags_witness :
    wellFormedOut 4 (stopContainerTool 4 [("container_id", JValue.str "c2")]
      (Except.error "no such container")) :=
  (c3_envelope_flags 4 [("container_id", JValue.str "c2")]
     (Except.ok []) ⟨Except.ok "", Except.ok (Except.ok "")⟩ (Except.ok ⟨[], none⟩)
     (Except.ok []) (Except.ok []) (Except.ok "") (Except.ok ())
     (Except.error "no such container") (Except.ok ()) (Except.ok ())
     (Except.ok []) (Except.ok (Except.ok "")) (Except.ok JValue.null)
     (Except.ok JValue.null)
     ⟨true, Except.ok (), Except.ok (Except.ok "")⟩).2.2.2.2.2.2.2.2.2.1

end DockerMCP
